import Mathlib

/-!
Verification development for the decoder-to-output pipeline core
(src/input/decoder.c and src/video_output/video_output.c).

The C code is shallowly embedded: C structs become Lean structures, the
relevant functions become executable Lean functions, machine integers are
modelled as Int (C `int` / `mtime_t` arithmetic never overflows on the
inputs considered), pointers to heap slots become list indices, and
buffers owned through `malloc`/`free` are tracked by an identity counter
so that reuse versus fresh allocation is observable.  Blocking waits on
condition variables are modelled by their exit conditions, and loops whose
termination is in question carry explicit fuel, `none` meaning the loop
does not terminate.
-/

/-- Division truncating toward zero, the semantics of C integer division. -/
def cDiv (a b : Int) : Int := Int.tdiv a b

/-- Invalid timestamp sentinel (`VLC_TS_INVALID`, value 0 in the headers this
code is written against; timestamps are compared with `>` against it). -/
def VLC_TS_INVALID : Int := 0

/-- Modelled from the spec: `INPUT_RATE_DEFAULT`, the integer encoding of
normal playback speed ("Rate — playback speed encoded as an integer where
`defaultRate` means normal speed").  Its defining header is not part of the
snapshot; the value is the one VLC uses.  No result below depends on it. -/
def INPUT_RATE_DEFAULT : Int := 1000

/-- Largest 64-bit signed integer, `INT64_MAX`, used by the decoder as the
preroll sentinel. -/
def INT64_MAX : Int := 9223372036854775807

/-- One compressed data block (`block_t`): byte size, timestamps and the flag
bits the decoder core reads (`BLOCK_FLAG_PREROLL`, `BLOCK_FLAG_DISCONTINUITY`,
`BLOCK_FLAG_CORRUPTED`, `BLOCK_FLAG_CORE_FLUSH`). -/
structure Block where
  i_buffer : Nat
  i_dts : Int
  i_pts : Int
  preroll : Bool
  discontinuity : Bool
  corrupted : Bool
  coreFlush : Bool
deriving DecidableEq, Repr

/-- Byte size of the FIFO contents (`vlc_fifo_GetBytes`). -/
def vlc_fifo_GetBytes (fifo : List Block) : Nat := (fifo.map Block.i_buffer).sum

/-- Number of queued blocks (`vlc_fifo_GetCount`). -/
def vlc_fifo_GetCount (fifo : List Block) : Nat := fifo.length

/-- Enqueue a block into the decoder FIFO (`input_DecoderDecode`,
src/input/decoder.c lines 1882-1910).  The argument `b_waiting` is the
owner flag read by the function.  When unpaced, the whole queue is dropped
first if its byte size exceeds 400 MiB.  When paced and the owner is not
waiting, the producer sleeps on `wait_fifo` until fewer than 10 blocks are
queued; in this sequential model no consumer can run during that wait, so a
call entered with 10 or more queued blocks never returns, which is encoded
as `none`.  When paced and the owner is waiting, the pacing loop is skipped
entirely (the code comments that pacing would deadlock). -/
def input_DecoderDecode (b_waiting : Bool) (fifo : List Block) (p_block : Block)
    (b_do_pace : Bool) : Option (List Block) :=
  if b_do_pace = false then
    if vlc_fifo_GetBytes fifo > 400 * 1024 * 1024 then
      some [p_block]
    else
      some (fifo ++ [p_block])
  else if b_waiting = false then
    if vlc_fifo_GetCount fifo ≥ 10 then none
    else some (fifo ++ [p_block])
  else
    some (fifo ++ [p_block])

/-- The owner fields of one decoder context that the flush path touches
(`decoder_owner_sys_t`): the FIFO and the drain/flush/wait booleans. -/
structure DecoderOwner where
  fifo : List Block
  b_draining : Bool
  b_flushing : Bool
  b_waiting : Bool
deriving DecidableEq, Repr

/-- The flush sentinel block (`DecoderBlockFlushNew`): a 128-byte zeroed
block flagged discontinuity, corrupted and core-flush. -/
def DecoderBlockFlushNew : Block :=
  { i_buffer := 128, i_dts := VLC_TS_INVALID, i_pts := VLC_TS_INVALID,
    preroll := false, discontinuity := true, corrupted := true, coreFlush := true }

/-- State change performed by `DecoderFlush` (src/input/decoder.c lines
1953-1978) up to its final wait: empty the FIFO, clear `b_draining` (flush
supersedes drain), raise `b_flushing`, then enqueue the flush sentinel
unpaced.  The sentinel allocation is modelled as succeeding. -/
def DecoderFlush (s : DecoderOwner) : DecoderOwner :=
  let s1 : DecoderOwner := { s with fifo := [], b_draining := false }
  let s2 : DecoderOwner := { s1 with b_flushing := true }
  match input_DecoderDecode s2.b_waiting s2.fifo DecoderBlockFlushNew false with
  | some f => { s2 with fifo := f }
  | none => s2

/-- Exit condition of the final loop of `DecoderFlush`
(`while (p_owner->b_flushing) vlc_cond_wait(&wait_acknowledge, ...)`):
the call returns only in a state where the flushing flag is down. -/
def DecoderFlushReturns (s : DecoderOwner) : Prop := s.b_flushing = false

/-- Worker-side acknowledgement of a flush sentinel (`DecoderProcessOnFlush`,
src/input/decoder.c lines 1370-1382): clear `b_flushing` and signal
`wait_acknowledge`, but only if the flag was raised.  The returned boolean
records whether the condition variable was signalled. -/
def DecoderProcessOnFlush (s : DecoderOwner) : DecoderOwner × Bool :=
  if s.b_flushing then ({ s with b_flushing := false }, true) else (s, false)

/-- Return codes of the controller facade.  The headers define
`VLC_SUCCESS` and the error code `VLC_EGENERIC` as distinct integers; only
their distinctness matters here. -/
inductive VlcRet
  | success
  | egeneric
deriving DecidableEq, Repr

/-- Closed-caption bookkeeping of a decoder owner (`p_owner->cc`): a
presence bit per channel and whether the per-channel sub-decoder handle
`pp_decoder[i]` is currently non-null. -/
structure DecoderCc where
  pb_present : Nat → Bool
  pp_decoder : Nat → Bool

/-- Query of the closed-caption state (`input_DecoderGetCcState`,
src/input/decoder.c lines 2061-2073).  Returns the value stored into
`*pb_decode` together with the function's return code.  The code returns
`VLC_EGENERIC` on every path, including the successful one. -/
def input_DecoderGetCcState (cc : DecoderCc) (i_channel : Int) : Bool × VlcRet :=
  if i_channel < 0 ∨ 4 ≤ i_channel ∨ cc.pb_present i_channel.toNat = false then
    (false, VlcRet.egeneric)
  else
    (cc.pp_decoder i_channel.toNat, VlcRet.egeneric)

/-- Elementary stream category of the decoder's output format
(`fmt_out.i_cat`). -/
inductive EsCat
  | audio
  | video
  | spu
  | unknown
deriving DecidableEq, Repr

/-- Externally visible actions of one `DecoderProcess` call: releasing the
input block, handing it to the stream-output packetiser path, dispatching
it to the per-category process function (which drives packetiser, codec and
sink), and acknowledging a flush sentinel.  The boolean carried by the
dispatch events is the `b_flush` argument passed down. -/
inductive DecEvent
  | releaseBlock
  | processSout
  | processAudio (flush : Bool)
  | processVideo (flush : Bool)
  | processSpu (flush : Bool)
  | acknowledgeFlush
deriving DecidableEq, Repr

/-- The decoder state read and written by `DecoderProcess` itself:
the error flag (`p_dec->b_error`), the flushing flag, the preroll boundary
(`i_preroll_end`) and the output category. -/
structure DecoderProc where
  b_error : Bool
  b_flushing : Bool
  i_preroll_end : Int
  cat : EsCat
deriving DecidableEq, Repr

/-- Preroll boundary update (`DecoderUpdatePreroll`, src/input/decoder.c
lines 683-691). -/
def DecoderUpdatePreroll (pi_preroll : Int) (p : Block) : Int :=
  if p.preroll || p.discontinuity then INT64_MAX
  else if p.i_dts > VLC_TS_INVALID then min pi_preroll p.i_dts
  else if p.i_pts > VLC_TS_INVALID then min pi_preroll p.i_pts
  else pi_preroll

/-- Tail of `DecoderProcess` (the `flush:` label): when the input block
carried `BLOCK_FLAG_CORE_FLUSH`, perform the worker-side flush
acknowledgement. -/
def DecoderProcessFlushTail (b_flush_request : Bool) (r : DecoderProc × List DecEvent) :
    DecoderProc × List DecEvent :=
  if b_flush_request then
    if r.1.b_flushing then
      ({ r.1 with b_flushing := false }, r.2 ++ [DecEvent.acknowledgeFlush])
    else r
  else r

/-- Decode one block (`DecoderProcess`, src/input/decoder.c lines
1391-1456), down to the per-category dispatch, which is recorded as an
event rather than expanded.  `b_packetizer` is the stream-output flag
(`p_owner->b_packetizer` under `ENABLE_SOUT`); `none` is the drain call.
An errored stream releases the block and skips to the flush tail; a
non-null block with `i_buffer <= 0` is released with no further effect;
otherwise the preroll boundary is updated from the block and the block is
dispatched on the output category, an unknown category raising the error
flag. -/
def DecoderProcess (s : DecoderProc) (b_packetizer : Bool) (p_block : Option Block) :
    DecoderProc × List DecEvent :=
  let b_flush_request :=
    match p_block with
    | some b => b.coreFlush
    | none => false
  if s.b_error then
    let ev :=
      match p_block with
      | some _ => [DecEvent.releaseBlock]
      | none => []
    DecoderProcessFlushTail b_flush_request (s, ev)
  else
    match p_block with
    | some b =>
      if b.i_buffer = 0 then
        (s, [DecEvent.releaseBlock])
      else if b_packetizer then
        DecoderProcessFlushTail b_flush_request (s, [DecEvent.processSout])
      else
        let wasFlushingPreroll := s.i_preroll_end = INT64_MAX
        let s1 := { s with i_preroll_end := DecoderUpdatePreroll s.i_preroll_end b }
        let b_flush := wasFlushingPreroll = false ∧ b_flush_request = true
        let r :=
          match s1.cat with
          | EsCat.audio => (s1, [DecEvent.processAudio (decide b_flush)])
          | EsCat.video => (s1, [DecEvent.processVideo (decide b_flush)])
          | EsCat.spu => (s1, [DecEvent.processSpu (decide b_flush)])
          | EsCat.unknown => ({ s1 with b_error := true }, [])
        DecoderProcessFlushTail b_flush_request r
    | none =>
      if b_packetizer then
        DecoderProcessFlushTail b_flush_request (s, [DecEvent.processSout])
      else
        let r :=
          match s.cat with
          | EsCat.audio => (s, [DecEvent.processAudio false])
          | EsCat.video => (s, [DecEvent.processVideo false])
          | EsCat.spu => (s, [DecEvent.processSpu false])
          | EsCat.unknown => ({ s with b_error := true }, [])
        DecoderProcessFlushTail b_flush_request r

/-- Modelled from the spec: the clock oracle backing `input_clock_ConvertTS`
and `input_clock_GetRate` lives in src/input/clock.c, which is not part of
the snapshot.  Following section 6 of the spec ("convert(rate-out, ts,
ts-opt, bound) -> ok or invalid", "get-rate() -> int"), a clock is a
success flag for the current conversion, a conversion function applied to
each valid timestamp, and the current rate. -/
structure InputClock where
  ok : Bool
  conv : Int → Int
  rate : Int

/-- Modelled from the spec: one oracle call converting a mandatory and an
optional timestamp.  On success each valid timestamp is converted; on
failure the conversion result is invalid and the failure flag (first
component) is raised. -/
def input_clock_ConvertTS (c : InputClock) (ts0 : Int) (ts1 : Option Int) :
    Bool × Int × Option Int :=
  if c.ok then
    (false, if ts0 > VLC_TS_INVALID then c.conv ts0 else ts0,
     ts1.map fun t => if t > VLC_TS_INVALID then c.conv t else t)
  else
    (true, VLC_TS_INVALID, ts1.map fun _ => VLC_TS_INVALID)

/-- Result of `DecoderFixTs`: the two timestamps, the duration and the
effective rate, as left in the caller's variables. -/
structure FixTsResult where
  ts0 : Int
  ts1 : Option Int
  duration : Option Int
  rate : Int
deriving DecidableEq, Repr

/-- Timestamp fixing (`DecoderFixTs`, src/input/decoder.c lines 693-740).
`i_es_delay` is the owner's `i_ts_delay`, `rate0` the caller's initial rate
value (returned untouched when no clock is attached).  The ephemeral test
compares the timestamps before the delay is added; a valid `ts0` (and a
valid `ts1`) get the delay added and are converted by the clock, a
conversion failure forcing `ts0` to the invalid sentinel; a pair made equal
by conversion only is separated by one microsecond; a supplied duration is
scaled by `rate / INPUT_RATE_DEFAULT`, rounding up. -/
def DecoderFixTs (i_es_delay : Int) (clock : Option InputClock) (rate0 : Int)
    (ts0 : Int) (ts1 : Option Int) (duration : Option Int) (_i_ts_bound : Int) :
    FixTsResult :=
  match clock with
  | none => { ts0 := ts0, ts1 := ts1, duration := duration, rate := rate0 }
  | some c =>
    let b_ephemere : Bool :=
      match ts1 with
      | some t1 => ts0 == t1
      | none => false
    let step : Int × Option Int × Int :=
      if ts0 > VLC_TS_INVALID then
        let ts0a := ts0 + i_es_delay
        let ts1a := ts1.map fun t => if t > VLC_TS_INVALID then t + i_es_delay else t
        let r := input_clock_ConvertTS c ts0a ts1a
        if r.1 then (VLC_TS_INVALID, r.2.2, c.rate) else (r.2.1, r.2.2, c.rate)
      else
        (ts0, ts1, c.rate)
    let ts1b :=
      match step.2.1 with
      | some t1 => some (if b_ephemere = false ∧ step.1 = t1 then t1 + 1 else t1)
      | none => none
    let durb := duration.map fun d =>
      cDiv (d * step.2.2 + INPUT_RATE_DEFAULT - 1) INPUT_RATE_DEFAULT
    { ts0 := step.1, ts1 := ts1b, duration := durb, rate := step.2.2 }

/-- Picture type of a heap slot (`i_type`): `EMPTY_PICTURE` or one of the
YUV layouts handled by `vout_CreatePicture`. -/
inductive PicType
  | empty
  | yuv420
  | yuv422
  | yuv444
deriving DecidableEq, Repr

/-- Lifecycle status of a picture heap slot (`i_status`): `FREE_PICTURE`,
`DESTROYED_PICTURE`, `RESERVED_PICTURE`, `RESERVED_DATED_PICTURE`,
`RESERVED_DISP_PICTURE`, `READY_PICTURE`, `DISPLAYED_PICTURE`. -/
inductive PicStatus
  | free
  | destroyed
  | reserved
  | reservedDated
  | reservedDisp
  | ready
  | displayed
deriving DecidableEq, Repr

/-- Declared aspect of a picture (`i_aspect_ratio`): `AR_3_4_PICTURE`,
`AR_16_9_PICTURE`, `AR_221_1_PICTURE`, `AR_SQUARE_PICTURE`. -/
inductive PicAspect
  | ar34
  | ar169
  | ar221
  | square
deriving DecidableEq, Repr

/-- One slot of the video output picture heap (`picture_t`), with the
fields the verified operations touch.  The buffer pointer `p_data` is
modelled by an identity: `none` is a null/absent buffer and `some n`
identifies one `malloc` result, so buffer reuse versus reallocation is
observable. -/
structure VoutPicture where
  i_type : PicType
  i_status : PicStatus
  i_width : Int
  i_height : Int
  i_chroma_width : Int
  i_refcount : Int
  date : Int
  i_aspect : PicAspect
  p_data : Option Nat
deriving DecidableEq, Repr

/-- The picture heap of one video output thread (`p_vout->p_picture`,
an array of `VOUT_MAX_PICTURES` slots, here a list of that length), plus
the allocation counter that hands out fresh buffer identities. -/
structure VoutHeap where
  p_picture : List VoutPicture
  nextData : Nat
deriving DecidableEq, Repr

/-- Exact-reuse test of the `vout_CreatePicture` scan: a destroyed slot
whose type, height and width all match the request. -/
def picMatches (i_type : PicType) (i_width i_height : Int) (p : VoutPicture) : Bool :=
  p.i_status == PicStatus.destroyed && p.i_type == i_type &&
    p.i_height == i_height && p.i_width == i_width

/-- Chroma width chosen by `vout_CreatePicture` for each YUV layout. -/
def picChromaWidth (i_type : PicType) (i_width : Int) : Int :=
  match i_type with
  | PicType.yuv420 => cDiv i_width 2
  | PicType.yuv422 => cDiv i_width 2
  | PicType.yuv444 => i_width
  | PicType.empty => 0

/-- Allocation tail of `vout_CreatePicture` on a chosen slot: allocate a
fresh buffer and fill in the slot's fields (type, reserved status,
dimensions, chroma width, square default aspect, zero refcount).  For an
unknown type no buffer layout exists: the slot is marked empty and free and
the call fails, as in the code's allocation-failure path. -/
def picAllocAt (h : VoutHeap) (i : Nat) (i_type : PicType) (i_width i_height : Int) :
    VoutHeap × Option Nat :=
  match i_type with
  | PicType.empty =>
    ( { h with p_picture := h.p_picture.modify (fun p =>
          { p with i_type := PicType.empty, i_status := PicStatus.free, p_data := none }) i },
      none )
  | _ =>
    ( { h with
        p_picture := h.p_picture.modify (fun p =>
          { p with
            i_type := i_type, i_status := PicStatus.reserved,
            i_width := i_width, i_height := i_height,
            i_chroma_width := picChromaWidth i_type i_width,
            i_refcount := 0, i_aspect := PicAspect.square,
            p_data := some h.nextData }) i,
        nextData := h.nextData + 1 },
      some i )

/-- Reserve a picture slot (`vout_CreatePicture`, src/video_output/
video_output.c lines 364-499).  The scan returns the first destroyed slot
with exactly matching type, width and height, reserved again with its
buffer kept; otherwise the first free slot is used, or, only when no free
slot exists, the first destroyed slot with its old buffer freed; in both
cases a fresh buffer is allocated.  With neither a free nor a destroyed
slot the heap is full and the call fails. -/
def vout_CreatePicture (h : VoutHeap) (i_type : PicType) (i_width i_height : Int) :
    VoutHeap × Option Nat :=
  match h.p_picture.findIdx? (picMatches i_type i_width i_height) with
  | some i =>
    ( { h with p_picture := h.p_picture.modify (fun p =>
          { p with i_status := PicStatus.reserved }) i },
      some i )
  | none =>
    match h.p_picture.findIdx? (fun p => p.i_status == PicStatus.free) with
    | some i => picAllocAt h i i_type i_width i_height
    | none =>
      match h.p_picture.findIdx? (fun p => p.i_status == PicStatus.destroyed) with
      | some i => picAllocAt h i i_type i_width i_height
      | none => (h, none)

/-- Destroy a reserved picture (`vout_DestroyPicture`, src/video_output/
video_output.c lines 510-527): the status becomes destroyed regardless of
the refcount, the buffer is kept for reuse. -/
def vout_DestroyPicture (p : VoutPicture) : VoutPicture :=
  { p with i_status := PicStatus.destroyed }

/-- Increment the reference counter (`vout_LinkPicture`). -/
def vout_LinkPicture (p : VoutPicture) : VoutPicture :=
  { p with i_refcount := p.i_refcount + 1 }

/-- Decrement the reference counter (`vout_UnlinkPicture`, src/video_output/
video_output.c lines 552-575): a displayed slot whose count reaches zero is
destroyed. -/
def vout_UnlinkPicture (p : VoutPicture) : VoutPicture :=
  let p1 := { p with i_refcount := p.i_refcount - 1 }
  if p1.i_refcount = 0 ∧ p1.i_status = PicStatus.displayed then
    { p1 with i_status := PicStatus.destroyed }
  else p1

/-- Release a picture for display (`vout_DisplayPicture`): reserved becomes
reserved-displayable, reserved-dated becomes ready, anything else is a
programmer error left unchanged. -/
def vout_DisplayPicture (p : VoutPicture) : VoutPicture :=
  match p.i_status with
  | PicStatus.reserved => { p with i_status := PicStatus.reservedDisp }
  | PicStatus.reservedDated => { p with i_status := PicStatus.ready }
  | _ => p

/-- Date a picture (`vout_DatePicture`): the date is stored and reserved
becomes reserved-dated, reserved-displayable becomes ready. -/
def vout_DatePicture (p : VoutPicture) (d : Int) : VoutPicture :=
  let p1 := { p with date := d }
  match p.i_status with
  | PicStatus.reserved => { p1 with i_status := PicStatus.reservedDated }
  | PicStatus.reservedDisp => { p1 with i_status := PicStatus.ready }
  | _ => p1

/-- Removal of a handled picture by the video output thread (`RunThread`,
src/video_output/video_output.c lines 697 and 743): the slot becomes
displayed while references are outstanding and destroyed otherwise. -/
def RunThreadRemovePicture (p : VoutPicture) : VoutPicture :=
  { p with i_status := if p.i_refcount = 0 then PicStatus.destroyed else PicStatus.displayed }

/-- The operations that can touch the status of one existing heap slot. -/
inductive PicOp
  | display
  | date (d : Int)
  | destroy
  | link
  | unlink
  | runRemove
deriving DecidableEq, Repr

/-- Apply one slot operation. -/
def picStep (op : PicOp) (p : VoutPicture) : VoutPicture :=
  match op with
  | PicOp.display => vout_DisplayPicture p
  | PicOp.date d => vout_DatePicture p d
  | PicOp.destroy => vout_DestroyPicture p
  | PicOp.link => vout_LinkPicture p
  | PicOp.unlink => vout_UnlinkPicture p
  | PicOp.runRemove => RunThreadRemovePicture p

/-- Externally visible actions of one main-loop iteration of the video
output thread.  `renderPic i` covers the `SetBufferPicture`/`RenderPicture`
calls on slot `i`.  `statLostIncrement` is modelled from the spec: the spec
expects a lost-picture counter update on a late picture, but no statistics
counter exists in src/video_output/video_output.c, so the embedded code
never emits this event. -/
inductive VoutEvent
  | renderPic (i : Nat)
  | statLostIncrement
deriving DecidableEq, Repr

/-- Scan of the picture heap for the ready slot with the smallest display
date (`RunThread`, src/video_output/video_output.c lines 675-684): the
first ready slot is taken and replaced whenever a strictly earlier ready
slot appears, so ties keep the lowest index. -/
def selectReady (pics : List VoutPicture) : Option (Nat × Int) :=
  pics.enum.foldl
    (fun acc ip =>
      if ip.2.i_status == PicStatus.ready &&
         (match acc with
          | none => true
          | some best => decide (ip.2.date < best.2)) then
        some (ip.1, ip.2.date)
      else acc)
    none

/-- One picture-handling iteration of the video output thread (`RunThread`,
src/video_output/video_output.c lines 663-744), restricted to the picture
path (the subpicture pointer is never set in this code).  `displayDelay`
is the header constant `VOUT_DISPLAY_DELAY` and `b_active` the thread's
active flag.  A late picture (date before `now`) is removed immediately,
displayed or destroyed according to its refcount, and nothing is rendered;
a picture further than `displayDelay` in the future leaves the heap
untouched and nothing is rendered; otherwise the picture is rendered (when
active) and then removed the same way. -/
def RunThreadIteration (displayDelay : Int) (b_active : Bool)
    (pics : List VoutPicture) (now : Int) : List VoutPicture × List VoutEvent :=
  match selectReady pics with
  | none => (pics, [])
  | some (i, d) =>
    if d < now then
      (pics.modify RunThreadRemovePicture i, [])
    else if d > now + displayDelay then
      (pics, [])
    else
      ( pics.modify RunThreadRemovePicture i,
        if b_active then [VoutEvent.renderPic i] else [] )

/-- Modelled from the spec: the band array capacity `VOUT_MAX_AREAS` is a
header constant not in the snapshot ("a sorted set of at most N dirty
vertical bands"); the results below do not depend on its value. -/
def VOUT_MAX_AREAS : Nat := 5

/-- One back buffer (`vout_buffer_t`): the picture region and the dirty
vertical band list.  The C band arrays `pi_area_begin` / `pi_area_end` of
size `VOUT_MAX_AREAS` are modelled as total functions from indices so that
the out-of-bounds accesses the code can perform stay defined. -/
structure VoutBuffer where
  i_pic_x : Int
  i_pic_y : Int
  i_pic_width : Int
  i_pic_height : Int
  i_areas : Nat
  areaBegin : Nat → Int
  areaEnd : Nat → Int

/-- Pointwise array update. -/
def setFn (f : Nat → Int) (i : Nat) (v : Int) : Nat → Int :=
  fun j => if j = i then v else f j

/-- Skip loop of `SetBufferArea` (src/video_output/video_output.c lines
1024-1030): the first band index whose end coordinate plus one is not
before the new band, or `i_areas` when every band is skipped. -/
def skipAreas (b : VoutBuffer) (i_y : Int) : Nat :=
  (((List.range b.i_areas).find? fun i => decide (b.areaEnd i + 1 > i_y))).getD b.i_areas

/-- Band-insertion shift loop of `SetBufferArea` as written (src/
video_output/video_output.c lines 1077-1081): starting from the last band,
each band is overwritten with its predecessor and the copy index is
*incremented* (`i_area_copy++`), so the loop guard `i_area_copy > i_area`
never becomes false once entered.  The fuel argument bounds the number of
iterations the model will perform; `none` means the fuel ran out with the
loop still running. -/
def shiftAreasLoop (fuel : Nat) (b : VoutBuffer) (i_area : Nat) (i_area_copy : Nat) :
    Option VoutBuffer :=
  match fuel with
  | 0 => none
  | fuel + 1 =>
    if i_area_copy > i_area then
      let b1 := { b with
        areaBegin := setFn b.areaBegin i_area_copy (b.areaBegin (i_area_copy - 1)),
        areaEnd := setFn b.areaEnd i_area_copy (b.areaEnd (i_area_copy - 1)) }
      shiftAreasLoop fuel b1 i_area (i_area_copy + 1)
    else some b

/-- Merge-scan stopping index of `SetBufferArea` as written (src/
video_output/video_output.c lines 1090-1097): the loop guard reads
`pi_area_begin[i_area]`, a value independent of the scan index, so whenever
a band follows `i_area` and `pi_area_begin[i_area] <= i_h` the scan runs to
the end of the list and, after the final decrement, stops at the last
band. -/
def mergeScanStop (b : VoutBuffer) (i_area : Nat) (i_h : Int) : Nat :=
  if i_area + 1 < b.i_areas ∧ b.areaBegin i_area ≤ i_h then b.i_areas - 1 else i_area

/-- Merge of bands `i_area+1 .. stop` into band `i_area` (src/
video_output/video_output.c lines 1099-1112): the end of band `i_area`
becomes the larger of the new end and the end of band `stop`, the bands
after `stop` slide up, and the band count shrinks. -/
def mergeAreas (b : VoutBuffer) (i_area stop : Nat) (i_h : Int) : VoutBuffer :=
  let shift := stop - i_area
  let b1 := { b with areaEnd := setFn b.areaEnd i_area (max i_h (b.areaEnd stop)) }
  { b1 with
    i_areas := b1.i_areas - shift,
    areaBegin := fun j =>
      if i_area + 1 ≤ j ∧ j < b1.i_areas - shift then b1.areaBegin (j + shift)
      else b1.areaBegin j,
    areaEnd := fun j =>
      if i_area + 1 ≤ j ∧ j < b1.i_areas - shift then b1.areaEnd (j + shift)
      else b1.areaEnd j }

/-- Band bookkeeping of `SetBufferArea` after the picture-region split
(src/video_output/video_output.c lines 1023-1120).  `i_y` and `i_h` are the
begin and end rows of the new band.  A band below every existing one is
appended, or merged into the last band when the array is full; a band
starting above the insertion point either extends it upward (when touching
or overlapping) or is inserted through the non-terminating shift loop; a
band ending below the insertion point's original end extends it downward or
merges the following bands. -/
def SetBufferAreaMerge (fuel : Nat) (b : VoutBuffer) (i_y i_h : Int) :
    Option VoutBuffer :=
  let i_area := skipAreas b i_y
  if i_area = b.i_areas then
    if i_area < VOUT_MAX_AREAS then
      some { b with
        areaBegin := setFn b.areaBegin i_area i_y,
        areaEnd := setFn b.areaEnd i_area i_h,
        i_areas := b.i_areas + 1 }
    else
      some { b with areaEnd := setFn b.areaEnd (VOUT_MAX_AREAS - 1) i_h }
  else
    let begin0 := b.areaBegin i_area
    let end0 := b.areaEnd i_area
    if i_y < begin0 ∧ i_h < begin0 - 1 then
      let b1 :=
        if b.i_areas = VOUT_MAX_AREAS then
          { b with areaEnd :=
              setFn b.areaEnd (VOUT_MAX_AREAS - 2) (b.areaEnd (VOUT_MAX_AREAS - 1)) }
        else
          { b with i_areas := b.i_areas + 1 }
      match shiftAreasLoop fuel b1 i_area (b1.i_areas - 1) with
      | none => none
      | some b2 =>
        some { b2 with
          areaBegin := setFn b2.areaBegin i_area i_y,
          areaEnd := setFn b2.areaEnd i_area i_h }
    else
      let b1 :=
        if i_y < begin0 then { b with areaBegin := setFn b.areaBegin i_area i_y }
        else b
      if i_h > end0 then
        let stop := mergeScanStop b1 i_area i_h
        if stop ≠ i_area then some (mergeAreas b1 i_area stop i_h)
        else some { b1 with areaEnd := setFn b1.areaEnd i_area i_h }
      else
        some b1

/-- Mark a rectangle dirty (`SetBufferArea`, src/video_output/
video_output.c lines 985-1120).  The height argument is first turned into
an end row; a rectangle horizontally covered by the picture region and
vertically meeting it is split into the stripes above and below the
picture, handled by recursive calls; otherwise the band enters the merge
logic.  Fuel bounds recursion and loop iterations; `none` means
non-termination within the given fuel. -/
def SetBufferArea : Nat → VoutBuffer → Int → Int → Int → Int → Option VoutBuffer
  | 0, _, _, _, _, _ => none
  | fuel + 1, b, i_x, i_y, i_w, i_h0 =>
    let i_h := i_h0 + i_y - 1
    if i_x ≥ b.i_pic_x ∧ i_x + i_w ≤ b.i_pic_x + b.i_pic_width then
      let i_area_begin := b.i_pic_y
      let i_area_end := i_area_begin + b.i_pic_height - 1
      if (i_y ≥ i_area_begin ∧ i_y ≤ i_area_end) ∨
         (i_h ≥ i_area_begin ∧ i_h ≤ i_area_end) ∨
         (i_y < i_area_begin ∧ i_h > i_area_end) then
        let r1 :=
          if i_y < i_area_begin then
            SetBufferArea fuel b i_x i_y i_w (i_area_begin - i_y)
          else some b
        match r1 with
        | none => none
        | some b1 =>
          if i_h > i_area_end then
            SetBufferArea fuel b1 i_x i_area_end i_w (i_h - i_area_end)
          else some b1
      else SetBufferAreaMerge fuel b i_y i_h
    else SetBufferAreaMerge fuel b i_y i_h

/-- The value of `b_scale` installed by `vout_CreateThread`
(src/video_output/video_output.c line 95); nothing in the repository sets
it afterwards. -/
def vout_CreateThread_b_scale : Bool := false

/-- On-screen picture box: position and dimensions. -/
structure PicArea where
  i_pic_x : Int
  i_pic_y : Int
  i_pic_width : Int
  i_pic_height : Int
deriving DecidableEq, Repr

/-- Height computed from a width and the declared aspect
(`SetBufferPicture`, src/video_output/video_output.c lines 1156-1171). -/
def heightFromWidth (ar : PicAspect) (w srcW srcH : Int) : Int :=
  match ar with
  | PicAspect.ar34 => cDiv (w * 3) 4
  | PicAspect.ar169 => cDiv (w * 9) 16
  | PicAspect.ar221 => cDiv (w * 100) 221
  | PicAspect.square => cDiv (srcH * w) srcW

/-- Width computed from a height and the declared aspect
(`SetBufferPicture`, src/video_output/video_output.c lines 1179-1194). -/
def widthFromHeight (ar : PicAspect) (h srcW srcH : Int) : Int :=
  match ar with
  | PicAspect.ar34 => cDiv (h * 4) 3
  | PicAspect.ar169 => cDiv (h * 16) 9
  | PicAspect.ar221 => cDiv (h * 221) 100
  | PicAspect.square => cDiv (srcW * h) srcH

/-- Picture box computation of `SetBufferPicture` (src/video_output/
video_output.c lines 1150-1201): horizontal fit first, with the width
snapped down to a multiple of 16 and the height derived from the aspect;
vertical fit instead when that height exceeds the display height; the box
is centred in the display. -/
def SetBufferPictureArea (b_scale : Bool) (voutW voutH srcW srcH : Int)
    (ar : PicAspect) : PicArea :=
  let w0 := if b_scale || decide (srcW > voutW) then voutW else srcW
  let w1 := cDiv w0 16 * 16
  let h1 := heightFromWidth ar w1 srcW srcH
  if h1 > voutH then
    let h2 := if b_scale || decide (srcH > voutH) then voutH else srcH
    let w2 := widthFromHeight ar h2 srcW srcH
    let w3 := cDiv w2 16 * 16
    { i_pic_x := cDiv (voutW - w3) 2, i_pic_y := cDiv (voutH - h2) 2,
      i_pic_width := w3, i_pic_height := h2 }
  else
    { i_pic_x := cDiv (voutW - w1) 2, i_pic_y := cDiv (voutH - h1) 2,
      i_pic_width := w1, i_pic_height := h1 }

/-- Claim C1, counterexample.  With pacing enabled but the owner in the
waiting state, `input_DecoderDecode` skips the pacing loop entirely (the
code comments that the FIFO is not consumed while waiting, so pacing would
deadlock): called on a FIFO already holding 10 blocks it queues immediately
and the count reaches 11, so the claim's "blocks until the FIFO holds fewer
than 10 blocks" and "the FIFO block count never exceeds 10" are false for
such calls. -/
theorem input_DecoderDecode_waiting_skips_pacing :
    input_DecoderDecode true (List.replicate 10 DecoderBlockFlushNew)
      DecoderBlockFlushNew true
      = some (List.replicate 10 DecoderBlockFlushNew ++ [DecoderBlockFlushNew]) ∧
    vlc_fifo_GetCount
      (List.replicate 10 DecoderBlockFlushNew ++ [DecoderBlockFlushNew]) = 11 ∧
    11 > 10 := by
  refine ⟨rfl, rfl, by decide⟩

/-- Claim C1, amended: for every paced call with the owner not waiting, the
enqueue does not complete while 10 or more blocks are queued (the producer
stays blocked), and whenever it completes the resulting count is at most
10. -/
theorem input_DecoderDecode_pace_bound :
    ∀ (fifo : List Block) (b : Block),
      (vlc_fifo_GetCount fifo ≥ 10 → input_DecoderDecode false fifo b true = none) ∧
      (vlc_fifo_GetCount fifo < 10 →
        input_DecoderDecode false fifo b true = some (fifo ++ [b]) ∧
        vlc_fifo_GetCount (fifo ++ [b]) ≤ 10) := by
  intro fifo b
  constructor
  · intro h
    simp [input_DecoderDecode, h]
  · intro h
    have h10 : ¬ vlc_fifo_GetCount fifo ≥ 10 := by omega
    refine ⟨by simp [input_DecoderDecode, h10], ?_⟩
    simp [vlc_fifo_GetCount] at h ⊢
    omega

/-- Claim C1, witness for the amended statement: a full FIFO blocks the
producer, an empty one accepts the block within the bound. -/
theorem input_DecoderDecode_pace_bound_witness :
    input_DecoderDecode false (List.replicate 10 DecoderBlockFlushNew)
      DecoderBlockFlushNew true = none ∧
    input_DecoderDecode false [] DecoderBlockFlushNew true
      = some [DecoderBlockFlushNew] ∧
    vlc_fifo_GetCount [DecoderBlockFlushNew] ≤ 10 := by
  refine ⟨(input_DecoderDecode_pace_bound (List.replicate 10 DecoderBlockFlushNew)
      DecoderBlockFlushNew).1 (by decide),
    ((input_DecoderDecode_pace_bound [] DecoderBlockFlushNew).2 (by decide)).1,
    ((input_DecoderDecode_pace_bound [] DecoderBlockFlushNew).2 (by decide)).2⟩

/-- Claim C8: from any owner state, `input_DecoderFlush` (through
`DecoderFlush`) leaves the FIFO holding exactly the one flush sentinel
(which carries the core-flush flag), clears a pending drain request, raises
the flushing flag so its final wait loop cannot return yet, and the
worker-side `DecoderProcessOnFlush` clears the flag and signals the
acknowledge condition, after which the wait loop exits. -/
theorem DecoderFlush_spec :
    ∀ s : DecoderOwner,
      (DecoderFlush s).fifo = [DecoderBlockFlushNew] ∧
      DecoderBlockFlushNew.coreFlush = true ∧
      (DecoderFlush s).b_draining = false ∧
      (DecoderFlush s).b_flushing = true ∧
      ¬ DecoderFlushReturns (DecoderFlush s) ∧
      (DecoderProcessOnFlush (DecoderFlush s)).2 = true ∧
      DecoderFlushReturns (DecoderProcessOnFlush (DecoderFlush s)).1 := by
  intro s
  simp [DecoderFlush, input_DecoderDecode, vlc_fifo_GetBytes, DecoderFlushReturns,
    DecoderProcessOnFlush, DecoderBlockFlushNew]

/-- Claim C9: for every channel between 0 and 3 whose presence bit is set,
`input_DecoderGetCcState` reports in its first component whether the
per-channel closed-caption sub-decoder exists, yet returns the error code
`VLC_EGENERIC` on this success path. -/
theorem input_DecoderGetCcState_success_is_egeneric :
    ∀ (cc : DecoderCc) (ch : Int), 0 ≤ ch → ch < 4 →
      cc.pb_present ch.toNat = true →
      input_DecoderGetCcState cc ch = (cc.pp_decoder ch.toNat, VlcRet.egeneric) ∧
      VlcRet.egeneric ≠ VlcRet.success := by
  intro cc ch h0 h4 hp
  refine ⟨?_, by decide⟩
  rw [input_DecoderGetCcState, if_neg]
  rintro (h | h | h)
  · omega
  · omega
  · rw [hp] at h
    exact Bool.noConfusion h

/-- Claim C9, witness: channel 2 with presence set and no sub-decoder
loaded. -/
theorem input_DecoderGetCcState_success_is_egeneric_witness :
    input_DecoderGetCcState ⟨fun _ => true, fun _ => false⟩ 2
      = (false, VlcRet.egeneric) ∧
    VlcRet.egeneric ≠ VlcRet.success := by
  have h := input_DecoderGetCcState_success_is_egeneric
    ⟨fun _ => true, fun _ => false⟩ 2 (by decide) (by decide) rfl
  exact h

/-- Claim C10: a non-null block of size zero (C `i_buffer <= 0` on the
unsigned size) without the core-flush flag makes `DecoderProcess` release
the block and return at once: the state (error flag, flushing flag, preroll
boundary, category) is unchanged and no packetiser, codec, sink or flush
acknowledgement action takes place. -/
theorem DecoderProcess_empty_block_noop :
    ∀ (s : DecoderProc) (b_packetizer : Bool) (b : Block),
      b.i_buffer = 0 → b.coreFlush = false →
      DecoderProcess s b_packetizer (some b) = (s, [DecEvent.releaseBlock]) := by
  intro s bp b h0 h1
  cases hs : s.b_error <;>
    simp [DecoderProcess, DecoderProcessFlushTail, hs, h0, h1]

/-- Claim C10, witness: a zero-sized, unflagged block on a healthy video
decoder. -/
theorem DecoderProcess_empty_block_noop_witness :
    DecoderProcess ⟨false, false, 9223372036854775807, EsCat.video⟩ false
      (some ⟨0, 0, 0, false, false, false, false⟩)
      = (⟨false, false, 9223372036854775807, EsCat.video⟩,
         [DecEvent.releaseBlock]) :=
  DecoderProcess_empty_block_noop _ _ _ rfl rfl

/-- Claim C6: for a decoder with a clock, (1) a pair whose two timestamps
were equal before the delay was added stays equal after conversion, with no
artificial one-microsecond separation; (2) a pair that was not equal but
whose converted values coincide has its second timestamp forced to the
first plus one; (3) a conversion failure forces the first timestamp to the
invalid sentinel; (4) a supplied duration is scaled by
`rate / INPUT_RATE_DEFAULT`, rounded upward. -/
theorem DecoderFixTs_spec :
    ∀ (delay : Int) (c : InputClock) (rate0 ts0 t1 : Int) (dur : Option Int)
      (bound : Int),
      (ts0 = t1 →
        (DecoderFixTs delay (some c) rate0 ts0 (some t1) dur bound).ts1
          = some (DecoderFixTs delay (some c) rate0 ts0 (some t1) dur bound).ts0) ∧
      (c.ok = true → ts0 > VLC_TS_INVALID → t1 > VLC_TS_INVALID → ts0 ≠ t1 →
        ts0 + delay > VLC_TS_INVALID → t1 + delay > VLC_TS_INVALID →
        c.conv (ts0 + delay) = c.conv (t1 + delay) →
        (DecoderFixTs delay (some c) rate0 ts0 (some t1) dur bound).ts0
          = c.conv (ts0 + delay) ∧
        (DecoderFixTs delay (some c) rate0 ts0 (some t1) dur bound).ts1
          = some (c.conv (ts0 + delay) + 1)) ∧
      (c.ok = false → ts0 > VLC_TS_INVALID →
        (DecoderFixTs delay (some c) rate0 ts0 (some t1) dur bound).ts0
          = VLC_TS_INVALID) ∧
      (∀ d : Int,
        (DecoderFixTs delay (some c) rate0 ts0 (some t1) (some d) bound).duration
          = some (cDiv (d * c.rate + INPUT_RATE_DEFAULT - 1) INPUT_RATE_DEFAULT)) := by
  intro delay c rate0 ts0 t1 dur bound
  refine ⟨?_, ?_, ?_, ?_⟩
  · intro h
    subst h
    by_cases h0 : ts0 > VLC_TS_INVALID
    · by_cases hok : c.ok = true
      · simp [DecoderFixTs, input_clock_ConvertTS, h0, hok]
      · simp [DecoderFixTs, input_clock_ConvertTS, h0, hok]
    · simp [DecoderFixTs, input_clock_ConvertTS, h0]
  · intro hok h0 h1 hne hd0 hd1 hconv
    have hbe : (ts0 == t1) = false := by
      simp [hne]
    constructor
    · simp [DecoderFixTs, input_clock_ConvertTS, h0, h1, hok, hd0, hd1]
    · simp [DecoderFixTs, input_clock_ConvertTS, h0, h1, hok, hd0, hd1, hbe, hconv]
  · intro hok h0
    simp [DecoderFixTs, input_clock_ConvertTS, h0, hok]
  · intro d
    by_cases h0 : ts0 > VLC_TS_INVALID
    · by_cases hok : c.ok = true
      · simp [DecoderFixTs, input_clock_ConvertTS, h0, hok]
      · simp [DecoderFixTs, input_clock_ConvertTS, h0, hok]
    · simp [DecoderFixTs, input_clock_ConvertTS, h0]

/-- Claim C6, witness: concrete instantiations of the four parts (an
ephemeral pair, a pair made equal by a constant conversion, a failing
conversion, and a duration scaled at the default rate). -/
theorem DecoderFixTs_spec_witness :
    (DecoderFixTs 5 (some ⟨true, fun t => t + 100, 1000⟩) 1000 7 (some 7) none 0).ts1
      = some (DecoderFixTs 5 (some ⟨true, fun t => t + 100, 1000⟩) 1000 7
          (some 7) none 0).ts0 ∧
    (DecoderFixTs 0 (some ⟨true, fun _ => 50, 1000⟩) 1000 3 (some 4) none 0).ts0
      = 50 ∧
    (DecoderFixTs 0 (some ⟨true, fun _ => 50, 1000⟩) 1000 3 (some 4) none 0).ts1
      = some 51 ∧
    (DecoderFixTs 0 (some ⟨false, fun t => t, 1000⟩) 1000 3 (some 4) none 0).ts0
      = VLC_TS_INVALID ∧
    (DecoderFixTs 0 (some ⟨true, fun t => t, 1000⟩) 1000 3 (some 4) (some 6) 0).duration
      = some (cDiv (6 * 1000 + INPUT_RATE_DEFAULT - 1) INPUT_RATE_DEFAULT) := by
  have h1 := (DecoderFixTs_spec 5 ⟨true, fun t => t + 100, 1000⟩ 1000 7 7 none 0).1 rfl
  have h2 := (DecoderFixTs_spec 0 ⟨true, fun _ => 50, 1000⟩ 1000 3 4 none 0).2.1
    rfl (by decide) (by decide) (by decide) (by decide) (by decide) rfl
  have h3 := (DecoderFixTs_spec 0 ⟨false, fun t => t, 1000⟩ 1000 3 4 none 0).2.2.1
    rfl (by decide)
  have h4 := (DecoderFixTs_spec 0 ⟨true, fun t => t, 1000⟩ 1000 3 4 none 0).2.2.2 6
  exact ⟨h1, h2.1, h2.2, h3, h4⟩

/-- Heap for the C2 counterexample: slot 0 destroyed with non-matching
dimensions and its buffer still allocated, slot 1 free. -/
def c2heap : VoutHeap :=
  { p_picture :=
      [ { i_type := PicType.yuv422, i_status := PicStatus.destroyed,
          i_width := 16, i_height := 16, i_chroma_width := 8, i_refcount := 0,
          date := 0, i_aspect := PicAspect.square, p_data := some 0 },
        { i_type := PicType.empty, i_status := PicStatus.free,
          i_width := 0, i_height := 0, i_chroma_width := 0, i_refcount := 0,
          date := 0, i_aspect := PicAspect.square, p_data := none } ],
    nextData := 1 }

/-- Claim C2, counterexample.  With a destroyed non-matching slot at index
0 and a free slot at index 1, `vout_CreatePicture` picks the free slot:
the destroyed slot is reused (and its buffer freed) only when no free slot
exists, the opposite of the claimed preference of the first destroyed slot
over the first free slot.  Slot 0 stays destroyed with its buffer. -/
theorem vout_CreatePicture_prefers_free_slot :
    (vout_CreatePicture c2heap PicType.yuv420 32 32).2 = some 1 ∧
    ((vout_CreatePicture c2heap PicType.yuv420 32 32).1.p_picture[0]?).map
        VoutPicture.i_status = some PicStatus.destroyed ∧
    ((vout_CreatePicture c2heap PicType.yuv420 32 32).1.p_picture[0]?).map
        VoutPicture.p_data = some (some 0) ∧
    (some 1 : Option Nat) ≠ some 0 := by
  refine ⟨by decide, by decide, by decide, by decide⟩

/-- Allocation tail of `vout_CreatePicture` on a known slot: fresh buffer,
slot reserved. -/
theorem picAllocAt_fresh (h : VoutHeap) (i : Nat) (ty : PicType) (w hg : Int)
    (hty : ty ≠ PicType.empty) (hb : i < h.p_picture.length) :
    (picAllocAt h i ty w hg).2 = some i ∧
    (picAllocAt h i ty w hg).1.nextData = h.nextData + 1 ∧
    ((picAllocAt h i ty w hg).1.p_picture[i]?).map VoutPicture.i_status
      = some PicStatus.reserved ∧
    ((picAllocAt h i ty w hg).1.p_picture[i]?).map VoutPicture.p_data
      = some (some h.nextData) := by
  cases ty
  · exact absurd rfl hty
  all_goals
    simp [picAllocAt, List.getElem?_modify, List.getElem?_eq_getElem hb]

/-- Claim C2, amended: a destroyed slot whose type, width and height match
exactly is reserved again with its buffer kept and no fresh allocation;
with no exact match, the first free slot is preferred, the first destroyed
slot (its buffer freed and reallocated) being used only when no free slot
exists; with neither, the call signals heap full and leaves the heap
unchanged.  Reused or fresh slots always come back with status reserved. -/
theorem vout_CreatePicture_spec :
    ∀ (h : VoutHeap) (ty : PicType) (w hg : Int), ty ≠ PicType.empty →
      (∀ i, h.p_picture.findIdx? (picMatches ty w hg) = some i →
        (vout_CreatePicture h ty w hg).2 = some i ∧
        (vout_CreatePicture h ty w hg).1.nextData = h.nextData ∧
        ((vout_CreatePicture h ty w hg).1.p_picture[i]?).map VoutPicture.i_status
          = some PicStatus.reserved ∧
        ((vout_CreatePicture h ty w hg).1.p_picture[i]?).map VoutPicture.p_data
          = (h.p_picture[i]?).map VoutPicture.p_data ∧
        ∀ j, j ≠ i →
          (vout_CreatePicture h ty w hg).1.p_picture[j]? = h.p_picture[j]?) ∧
      (h.p_picture.findIdx? (picMatches ty w hg) = none →
       ∀ i, h.p_picture.findIdx? (fun p => p.i_status == PicStatus.free) = some i →
        (vout_CreatePicture h ty w hg).2 = some i ∧
        (vout_CreatePicture h ty w hg).1.nextData = h.nextData + 1 ∧
        ((vout_CreatePicture h ty w hg).1.p_picture[i]?).map VoutPicture.i_status
          = some PicStatus.reserved ∧
        ((vout_CreatePicture h ty w hg).1.p_picture[i]?).map VoutPicture.p_data
          = some (some h.nextData)) ∧
      (h.p_picture.findIdx? (picMatches ty w hg) = none →
       h.p_picture.findIdx? (fun p => p.i_status == PicStatus.free) = none →
       ∀ i, h.p_picture.findIdx? (fun p => p.i_status == PicStatus.destroyed)
          = some i →
        (vout_CreatePicture h ty w hg).2 = some i ∧
        (vout_CreatePicture h ty w hg).1.nextData = h.nextData + 1 ∧
        ((vout_CreatePicture h ty w hg).1.p_picture[i]?).map VoutPicture.p_data
          = some (some h.nextData)) ∧
      (h.p_picture.findIdx? (picMatches ty w hg) = none →
       h.p_picture.findIdx? (fun p => p.i_status == PicStatus.free) = none →
       h.p_picture.findIdx? (fun p => p.i_status == PicStatus.destroyed) = none →
        vout_CreatePicture h ty w hg = (h, none)) := by
  intro h ty w hg hty
  refine ⟨?_, ?_, ?_, ?_⟩
  · intro i hf
    obtain ⟨hb, _, _⟩ := List.findIdx?_eq_some_iff_getElem.mp hf
    refine ⟨?_, ?_, ?_, ?_, ?_⟩ <;>
      simp [vout_CreatePicture, hf, List.getElem?_modify,
        List.getElem?_eq_getElem hb]
    intro j hj
    simp [vout_CreatePicture, hf, List.getElem?_modify, Ne.symm hj]
  · intro hnm i hf
    obtain ⟨hb, _, _⟩ := List.findIdx?_eq_some_iff_getElem.mp hf
    have := picAllocAt_fresh h i ty w hg hty hb
    simpa [vout_CreatePicture, hnm, hf] using this
  · intro hnm hnf i hf
    obtain ⟨hb, _, _⟩ := List.findIdx?_eq_some_iff_getElem.mp hf
    have := picAllocAt_fresh h i ty w hg hty hb
    exact ⟨by simpa [vout_CreatePicture, hnm, hnf, hf] using this.1,
      by simpa [vout_CreatePicture, hnm, hnf, hf] using this.2.1,
      by simpa [vout_CreatePicture, hnm, hnf, hf] using this.2.2.2⟩
  · intro hnm hnf hnd
    simp [vout_CreatePicture, hnm, hnf, hnd]

/-- Claim C2, witness: on `c2heap`, requesting the exact dimensions of the
destroyed slot 0 reuses that slot with its buffer and no allocation. -/
theorem vout_CreatePicture_spec_witness :
    (vout_CreatePicture c2heap PicType.yuv422 16 16).2 = some 0 ∧
    (vout_CreatePicture c2heap PicType.yuv422 16 16).1.nextData
      = c2heap.nextData ∧
    ((vout_CreatePicture c2heap PicType.yuv422 16 16).1.p_picture[0]?).map
        VoutPicture.i_status = some PicStatus.reserved ∧
    ((vout_CreatePicture c2heap PicType.yuv422 16 16).1.p_picture[0]?).map
        VoutPicture.p_data = (c2heap.p_picture[0]?).map VoutPicture.p_data := by
  have h := (vout_CreatePicture_spec c2heap PicType.yuv422 16 16 (by decide)).1 0
    (by decide)
  exact ⟨h.1, h.2.1, h.2.2.1, h.2.2.2.1⟩

/-- Ready picture for the C3 scenario: display date 9000, refcount 0. -/
def c3pic : VoutPicture :=
  { i_type := PicType.yuv420, i_status := PicStatus.ready, i_width := 64,
    i_height := 64, i_chroma_width := 32, i_refcount := 0, date := 9000,
    i_aspect := PicAspect.square, p_data := some 0 }

/-- Claim C3, counterexample.  At `now = 10000` with the single ready
picture dated 9000 and refcount 0, the late path sets the status to
destroyed and renders nothing, exactly as claimed, but the iteration
performs no statistics action whatsoever: no lost-counter increment exists
anywhere in src/video_output/video_output.c, so the claimed
"lost counter is incremented by one" is false at this input. -/
theorem RunThreadIteration_no_lost_counter :
    (RunThreadIteration 80000 true [c3pic] 10000).1
      = [{ c3pic with i_status := PicStatus.destroyed }] ∧
    (RunThreadIteration 80000 true [c3pic] 10000).2 = [] ∧
    VoutEvent.statLostIncrement ∉ (RunThreadIteration 80000 true [c3pic] 10000).2 := by
  refine ⟨by decide, by decide, by decide⟩

/-- Claim C3, amended: for the selected ready picture with smallest date
`d`, if `d < now` the slot is removed with status displayed when the
refcount is non-zero and destroyed when it is zero, the other slots are
untouched and nothing is rendered; if `d > now + VOUT_DISPLAY_DELAY` the
iteration renders nothing and leaves the heap unchanged.  (No lost counter
exists in this code.) -/
theorem RunThreadIteration_late_early :
    ∀ (delay : Int) (active : Bool) (pics : List VoutPicture) (now : Int)
      (i : Nat) (d : Int), 0 ≤ delay → selectReady pics = some (i, d) →
      (d < now →
        (RunThreadIteration delay active pics now).2 = [] ∧
        (∀ j, (RunThreadIteration delay active pics now).1[j]?
          = if i = j then (pics[j]?).map RunThreadRemovePicture else pics[j]?) ∧
        (∀ p : VoutPicture, (RunThreadRemovePicture p).i_status
          = if p.i_refcount = 0 then PicStatus.destroyed
            else PicStatus.displayed)) ∧
      (d > now + delay →
        RunThreadIteration delay active pics now = (pics, [])) := by
  intro delay active pics now i d hdel hs
  constructor
  · intro hlt
    refine ⟨?_, ?_, ?_⟩
    · simp [RunThreadIteration, hs, hlt]
    · intro j
      by_cases hij : i = j <;>
        simp [RunThreadIteration, hs, hlt, List.getElem?_modify, hij]
    · intro p
      simp [RunThreadRemovePicture]
  · intro hgt
    have hnlt : ¬ d < now := by omega
    simp [RunThreadIteration, hs, hnlt, hgt]

/-- Claim C3, witness: the late picture of the counterexample scenario, and
the same picture far ahead of a 500-microsecond display delay. -/
theorem RunThreadIteration_late_early_witness :
    (RunThreadIteration 80000 true [c3pic] 10000).2 = [] ∧
    RunThreadIteration 500 true [c3pic] 100 = ([c3pic], []) := by
  have h := RunThreadIteration_late_early 80000 true [c3pic] 10000 0 9000
    (by decide) (by decide)
  have h2 := RunThreadIteration_late_early 500 true [c3pic] 100 0 9000
    (by decide) (by decide)
  exact ⟨(h.1 (by decide)).1, h2.2 (by decide)⟩

/-- Claim C4: `vout_UnlinkPicture` decrements the refcount and destroys the
slot exactly when the decremented count reaches zero on a displayed slot
(or the slot was already destroyed); `vout_DestroyPicture` destroys
regardless of the refcount; and across every slot operation of this file
(display, date, destroy, link, unlink, and the output thread's removal) a
slot only newly becomes destroyed through an explicit destroy or with a
zero refcount. -/
theorem picture_destroyed_only_explicit_or_unreferenced :
    (∀ p : VoutPicture, (vout_UnlinkPicture p).i_refcount = p.i_refcount - 1) ∧
    (∀ p : VoutPicture, (vout_UnlinkPicture p).i_status = PicStatus.destroyed ↔
      (p.i_status = PicStatus.destroyed ∨
       (p.i_refcount - 1 = 0 ∧ p.i_status = PicStatus.displayed))) ∧
    (∀ p : VoutPicture, (vout_DestroyPicture p).i_status = PicStatus.destroyed) ∧
    (∀ (op : PicOp) (p : VoutPicture),
      (picStep op p).i_status = PicStatus.destroyed →
      p.i_status = PicStatus.destroyed ∨ op = PicOp.destroy ∨
      (picStep op p).i_refcount = 0) := by
  refine ⟨?_, ?_, ?_, ?_⟩
  · intro p
    by_cases hc : p.i_refcount - 1 = 0 ∧ p.i_status = PicStatus.displayed <;>
      simp [vout_UnlinkPicture, hc]
  · intro p
    by_cases hrc : p.i_refcount - 1 = 0 <;>
      cases hst : p.i_status <;>
        simp [vout_UnlinkPicture, hrc, hst]
  · intro p
    simp [vout_DestroyPicture]
  · intro op p hdes
    cases op with
    | display =>
      cases hst : p.i_status <;>
        simp [picStep, vout_DisplayPicture, hst] at hdes ⊢
    | date d =>
      cases hst : p.i_status <;>
        simp [picStep, vout_DatePicture, hst] at hdes ⊢
    | destroy =>
      right
      left
      rfl
    | link =>
      left
      simpa [picStep, vout_LinkPicture] using hdes
    | unlink =>
      by_cases hc : p.i_refcount - 1 = 0 ∧ p.i_status = PicStatus.displayed
      · right
        right
        simp [picStep, vout_UnlinkPicture, hc, hc.1]
      · left
        simpa [picStep, vout_UnlinkPicture, hc] using hdes
    | runRemove =>
      by_cases hrc : p.i_refcount = 0
      · right
        right
        simp [picStep, RunThreadRemovePicture, hrc]
      · simp [picStep, RunThreadRemovePicture, hrc] at hdes

/-- Displayed slot holding its last reference, for the C4 witness. -/
def c4displayed : VoutPicture :=
  { i_type := PicType.yuv420, i_status := PicStatus.displayed, i_width := 64,
    i_height := 64, i_chroma_width := 32, i_refcount := 1, date := 9000,
    i_aspect := PicAspect.square, p_data := some 0 }

/-- Reserved slot with two outstanding references, for the C4 witness. -/
def c4reserved : VoutPicture :=
  { i_type := PicType.yuv420, i_status := PicStatus.reserved, i_width := 64,
    i_height := 64, i_chroma_width := 32, i_refcount := 2, date := 9000,
    i_aspect := PicAspect.square, p_data := some 0 }

/-- Claim C4, witness: unlinking the last reference of a displayed slot
destroys it; destroying a reserved slot with two outstanding references
destroys it regardless; the generic transition law applied to that
destroy. -/
theorem picture_destroyed_only_witness :
    (vout_UnlinkPicture c4displayed).i_refcount = 0 ∧
    ((vout_UnlinkPicture c4displayed).i_status = PicStatus.destroyed ↔
      (c4displayed.i_status = PicStatus.destroyed ∨
       (c4displayed.i_refcount - 1 = 0 ∧
        c4displayed.i_status = PicStatus.displayed))) ∧
    (vout_DestroyPicture c4reserved).i_status = PicStatus.destroyed ∧
    (c4reserved.i_status = PicStatus.destroyed ∨ PicOp.destroy = PicOp.destroy ∨
      (picStep PicOp.destroy c4reserved).i_refcount = 0) := by
  have h := picture_destroyed_only_explicit_or_unreferenced
  exact ⟨h.1 c4displayed, h.2.1 c4displayed, h.2.2.1 c4reserved,
    h.2.2.2 PicOp.destroy c4reserved (by decide)⟩

/-- The shift loop of `SetBufferArea` never exits once entered: its copy
index moves away from the exit condition. -/
theorem shiftAreasLoop_diverges :
    ∀ (fuel : Nat) (b : VoutBuffer) (i ic : Nat), i < ic →
      shiftAreasLoop fuel b i ic = none := by
  intro fuel
  induction fuel with
  | zero =>
    intro b i ic h
    rfl
  | succ n ih =>
    intro b i ic h
    rw [shiftAreasLoop, if_pos h]
    exact ih _ _ _ (by omega)

/-- Back buffer for the C5 failing input: no picture region, two dirty
bands 0-1 and 10-11. -/
def c5buffer : VoutBuffer :=
  { i_pic_x := 0, i_pic_y := 0, i_pic_width := 0, i_pic_height := 0,
    i_areas := 2,
    areaBegin := fun j => if j = 0 then 0 else if j = 1 then 10 else 0,
    areaEnd := fun j => if j = 0 then 1 else if j = 1 then 11 else 0 }

/-- Claim C5: evaluation of the code at the failing input.  Marking the
rectangle `x=0, y=3, w=100, h=2` (band 3-4) on a buffer with bands 0-1 and
10-11 reaches the "create a new area above" branch, whose shift loop
(src/video_output/video_output.c line 1077) increments `i_area_copy`
instead of decrementing it and therefore never meets its exit condition
`i_area_copy > i_area`: for every fuel bound the model reports
non-termination, where the code's own comment ("move all old areas down")
and the claim require the new band to be inserted with the list kept
sorted and non-overlapping. -/
theorem SetBufferArea_insert_above_diverges :
    ∀ fuel : Nat, SetBufferArea fuel c5buffer 0 3 100 2 = none := by
  intro fuel
  cases fuel with
  | zero => rfl
  | succ n =>
    have hskip : skipAreas c5buffer 3 = 1 := by rfl
    simp only [SetBufferArea, SetBufferAreaMerge]
    rw [hskip]
    simp [c5buffer, VOUT_MAX_AREAS, setFn, shiftAreasLoop_diverges]

/-- Claim C7: with the scaling flag as `vout_CreateThread` installs it, the
picture box width is `min(sinkWidth, srcWidth)` rounded down to a multiple
of 16 and the height follows from the declared aspect; when that height
exceeds the sink height the fit is redone vertically (height
`min(sinkHeight, srcHeight)`, width from the inverse aspect, again snapped
to 16); and in both cases the box is centred in the sink. -/
theorem SetBufferPictureArea_spec :
    ∀ (voutW voutH srcW srcH : Int) (ar : PicAspect),
      (heightFromWidth ar (cDiv (min voutW srcW) 16 * 16) srcW srcH ≤ voutH →
        SetBufferPictureArea vout_CreateThread_b_scale voutW voutH srcW srcH ar
          = { i_pic_x := cDiv (voutW - cDiv (min voutW srcW) 16 * 16) 2,
              i_pic_y := cDiv (voutH - heightFromWidth ar
                  (cDiv (min voutW srcW) 16 * 16) srcW srcH) 2,
              i_pic_width := cDiv (min voutW srcW) 16 * 16,
              i_pic_height := heightFromWidth ar
                  (cDiv (min voutW srcW) 16 * 16) srcW srcH }) ∧
      (heightFromWidth ar (cDiv (min voutW srcW) 16 * 16) srcW srcH > voutH →
        (SetBufferPictureArea vout_CreateThread_b_scale voutW voutH srcW srcH
            ar).i_pic_height = min voutH srcH ∧
        (SetBufferPictureArea vout_CreateThread_b_scale voutW voutH srcW srcH
            ar).i_pic_width
          = cDiv (widthFromHeight ar (min voutH srcH) srcW srcH) 16 * 16) ∧
      (SetBufferPictureArea vout_CreateThread_b_scale voutW voutH srcW srcH
          ar).i_pic_x
        = cDiv (voutW - (SetBufferPictureArea vout_CreateThread_b_scale voutW
            voutH srcW srcH ar).i_pic_width) 2 ∧
      (SetBufferPictureArea vout_CreateThread_b_scale voutW voutH srcW srcH
          ar).i_pic_y
        = cDiv (voutH - (SetBufferPictureArea vout_CreateThread_b_scale voutW
            voutH srcW srcH ar).i_pic_height) 2 := by
  intro voutW voutH srcW srcH ar
  have hw : (if vout_CreateThread_b_scale || decide (srcW > voutW)
      then voutW else srcW) = min voutW srcW := by
    simp only [vout_CreateThread_b_scale, Bool.false_or, decide_eq_true_eq]
    rw [Int.min_def]
    split <;> split <;> omega
  have hh : (if vout_CreateThread_b_scale || decide (srcH > voutH)
      then voutH else srcH) = min voutH srcH := by
    simp only [vout_CreateThread_b_scale, Bool.false_or, decide_eq_true_eq]
    rw [Int.min_def]
    split <;> split <;> omega
  refine ⟨?_, ?_, ?_, ?_⟩
  · intro hle
    simp only [SetBufferPictureArea, hw, hh]
    rw [if_neg (not_lt.mpr hle)]
  · intro hgt
    simp only [SetBufferPictureArea, hw, hh]
    rw [if_pos hgt]
    exact ⟨rfl, rfl⟩
  · by_cases hc : heightFromWidth ar (cDiv (min voutW srcW) 16 * 16) srcW srcH
        > voutH
    · simp only [SetBufferPictureArea, hw, hh]
      rw [if_pos hc]
    · simp only [SetBufferPictureArea, hw, hh]
      rw [if_neg hc]
  · by_cases hc : heightFromWidth ar (cDiv (min voutW srcW) 16 * 16) srcW srcH
        > voutH
    · simp only [SetBufferPictureArea, hw, hh]
      rw [if_pos hc]
    · simp only [SetBufferPictureArea, hw, hh]
      rw [if_neg hc]

/-- Claim C7, witness: a 64x64 square source in a 128x128 sink fits
horizontally and is centred; a 2.21:1 source in a 1000x100 sink overflows
vertically and is refitted to height 100 and width 208. -/
theorem SetBufferPictureArea_spec_witness :
    SetBufferPictureArea vout_CreateThread_b_scale 128 128 64 64
        PicAspect.square
      = { i_pic_x := 32, i_pic_y := 32, i_pic_width := 64, i_pic_height := 64 } ∧
    (SetBufferPictureArea vout_CreateThread_b_scale 1000 100 1000 500
        PicAspect.ar221).i_pic_height = 100 ∧
    (SetBufferPictureArea vout_CreateThread_b_scale 1000 100 1000 500
        PicAspect.ar221).i_pic_width = 208 := by
  have h1 := (SetBufferPictureArea_spec 128 128 64 64 PicAspect.square).1
    (by decide)
  have h2 := (SetBufferPictureArea_spec 1000 100 1000 500 PicAspect.ar221).2.1
    (by decide)
  exact ⟨h1, h2.1, h2.2⟩

/-- Claim C8, witness: a flush issued on an owner with two queued blocks
and a pending drain request. -/
theorem DecoderFlush_spec_witness :
    (DecoderFlush ⟨[DecoderBlockFlushNew, DecoderBlockFlushNew], true, false,
        false⟩).fifo = [DecoderBlockFlushNew] ∧
    (DecoderFlush ⟨[DecoderBlockFlushNew, DecoderBlockFlushNew], true, false,
        false⟩).b_draining = false ∧
    (DecoderFlush ⟨[DecoderBlockFlushNew, DecoderBlockFlushNew], true, false,
        false⟩).b_flushing = true ∧
    DecoderFlushReturns (DecoderProcessOnFlush (DecoderFlush
        ⟨[DecoderBlockFlushNew, DecoderBlockFlushNew], true, false, false⟩)).1 := by
  have h := DecoderFlush_spec
    ⟨[DecoderBlockFlushNew, DecoderBlockFlushNew], true, false, false⟩
  exact ⟨h.1, h.2.2.1, h.2.2.2.1, h.2.2.2.2.2.2⟩
